import Mathlib

/-!
# Verification of the LabOps Data Quality Rules Engine

Shallow embedding of `scripts/dq_rules_engine.py` (the `DQRulesEngine` class:
rule loading, the eight rule-kind validators, `validate_data`, and
`generate_report`) together with proofs of the specified properties.

Modelling conventions:
* A pandas timestamp is a pair (day, time-of-day); `normalize` zeroes the
  time-of-day component, and comparisons are lexicographic.
* A cell is missing (`NaN`), a string, an integer, or a timestamp; a column
  carries a pandas dtype tag and its list of cells; a data frame carries its
  row count and a name-indexed list of columns.
* `pd.to_datetime(-, errors=coerce)` is modelled cellwise, with the library's
  string parser abstracted as a parameter `p : String → Option Ts`
  (unparseable and missing values become `NaT = none`; comparisons against
  `NaT` are `false`, as in pandas).
* Pandas comparisons dispatch on dtype: after the timestamp validators'
  object-to-datetime conversion a column is a datetime64 or numeric series;
  series-vs-series ordering across those dtypes raises `TypeError` without
  touching values, and a numeric series compared against a `Timestamp` scalar
  raises elementwise (so only when a row exists).
* A Python exception escaping a validator is `Except.error`; `sys.exit` in the
  loader is `LoadResult.exited`.
* File writes performed by `generate_report` are recorded as an explicit
  effect list; Python string formatting of floats/lists is abstracted by
  simple deterministic renderings, which no proved property inspects.
-/

set_option autoImplicit false

namespace LabOpsDQ

/-- A pandas `Timestamp`: a day index and a time-of-day offset within the day,
compared lexicographically. -/
structure Ts where
  day : Int
  tod : Nat
deriving DecidableEq, Repr

/-- Strict `<` on timestamps. -/
def Ts.ltb (a b : Ts) : Bool :=
  decide (a.day < b.day) || (decide (a.day = b.day) && decide (a.tod < b.tod))

/-- `≤` on timestamps. -/
def Ts.leb (a b : Ts) : Bool :=
  decide (a.day < b.day) || (decide (a.day = b.day) && decide (a.tod ≤ b.tod))

/-- `Timestamp.normalize()`: truncate to midnight of the same day. -/
def Ts.normalize (t : Ts) : Ts := ⟨t.day, 0⟩

/-- One cell of a data frame: missing (`NaN`/`None`), a string, an integer, or
an already-datetime value. -/
inductive Cell where
  | null
  | str (s : String)
  | int (n : Int)
  | ts (t : Ts)
deriving DecidableEq, Repr

/-- The pandas dtype of a column, as far as the validators inspect it. -/
inductive DType where
  | object
  | numeric
  | datetime
deriving DecidableEq, Repr

/-- A data-frame column: its dtype and its cells in row order. -/
structure Column where
  dtype : DType
  cells : List Cell
deriving DecidableEq, Repr

/-- A data frame: the row count (`len(df)`) and the named columns. -/
structure DataFrame where
  nrows : Nat
  cols : List (String × Column)
deriving DecidableEq, Repr

/-- `df[c]` as an optional column (first column of that name). -/
def DataFrame.getCol? (df : DataFrame) (c : String) : Option Column :=
  (df.cols.find? (fun pr => pr.1 == c)).map (fun pr => pr.2)

/-- `c in df.columns`. -/
def DataFrame.hasCol (df : DataFrame) (c : String) : Bool :=
  (df.getCol? c).isSome

/-- Well-formedness: every column has exactly `nrows` cells (always true of a
real pandas frame). -/
def DataFrame.Wf (df : DataFrame) : Prop :=
  ∀ pr ∈ df.cols, pr.2.cells.length = df.nrows

instance (df : DataFrame) : Decidable df.Wf := by
  unfold DataFrame.Wf; infer_instance

/-- `pd.isna` on one cell. -/
def Cell.isna : Cell → Bool
  | Cell.null => true
  | _ => false

/-- `pd.to_datetime(-, errors=coerce)` cellwise: missing values become `NaT`,
strings go through the abstract parser `p`, integers are read as epoch
offsets (the unit is immaterial here), datetime values pass through. -/
def toDatetime (p : String → Option Ts) : Cell → Option Ts
  | Cell.null => none
  | Cell.str s => p s
  | Cell.int n => some ⟨n, 0⟩
  | Cell.ts t => some t

/-- The value view of a cell of a datetime64 column (`NaT = none`; cells of
another kind cannot occur in such a pandas column and count as missing). -/
def Cell.asTs : Cell → Option Ts
  | Cell.ts t => some t
  | _ => none

/-- The value view of a cell of a numeric column (`NaN = none`; cells of
another kind cannot occur in such a pandas column and count as missing). -/
def Cell.asInt : Cell → Option Int
  | Cell.int n => some n
  | _ => none

/-- A column as it participates in a comparison after the timestamp
validators' conversion step: either a datetime64 series or a numeric series.
Pandas dispatches comparisons on this dtype, so the tag is part of the
semantics, not just the values. -/
inductive ConvSeries where
  | dt (vals : List (Option Ts))
  | num (vals : List (Option Int))
deriving DecidableEq, Repr

/-- The conversion step `if df_copy[col].dtype == object: df_copy[col] =
pd.to_datetime(df_copy[col], errors=coerce)` followed by taking the column's
comparison view: an object column becomes datetime64, a datetime column stays
datetime64, a numeric column stays numeric. -/
def convSeries (p : String → Option Ts) (col : Column) : ConvSeries :=
  match col.dtype with
  | DType.object => ConvSeries.dt (col.cells.map (toDatetime p))
  | DType.datetime => ConvSeries.dt (col.cells.map Cell.asTs)
  | DType.numeric => ConvSeries.num (col.cells.map Cell.asInt)

/-- `x > t` for one datetime64 entry against a `Timestamp`; comparisons with
`NaT` are `false`. -/
def optGtTs (x : Option Ts) (t : Ts) : Bool :=
  match x with
  | some a => Ts.ltb t a
  | none => false

/-- `a >= b` on two datetime64 entries; any comparison involving `NaT` is
`false`. -/
def optGeTs : Option Ts → Option Ts → Bool
  | some a, some b => Ts.leb b a
  | _, _ => false

/-- `a >= b` on two numeric entries; any comparison involving `NaN` is
`false`. -/
def optGeInt : Option Int → Option Int → Bool
  | some a, some b => decide (b ≤ a)
  | _, _ => false

/-- `s1 >= s2` on two converted series, as pandas evaluates
`df_copy[rc] >= df_copy[pc]`: elementwise within a common dtype, but a
datetime64-vs-numeric ordering comparison is rejected at the dtype level
(`invalid_comparison` raises `TypeError` before any value is touched, so
also on zero rows). -/
def seriesGeSeries : ConvSeries → ConvSeries → Except String (List Bool)
  | ConvSeries.dt a, ConvSeries.dt b =>
    Except.ok ((a.zip b).map (fun q => optGeTs q.1 q.2))
  | ConvSeries.num a, ConvSeries.num b =>
    Except.ok ((a.zip b).map (fun q => optGeInt q.1 q.2))
  | _, _ => Except.error "TypeError"

/-- `s > t` for a converted series against a `Timestamp` scalar, as pandas
evaluates `df_copy[col] > today`: elementwise on a datetime64 series; on a
numeric series NumPy falls back to an elementwise object comparison, so the
first row raises `TypeError` while the empty series yields an empty mask. -/
def seriesGtScalarTs : ConvSeries → Ts → Except String (List Bool)
  | ConvSeries.dt a, t => Except.ok (a.map (fun x => optGtTs x t))
  | ConvSeries.num a, _ =>
    if a.isEmpty then Except.ok [] else Except.error "TypeError"

/-- Positions (0-based row labels) at which a predicate holds, starting the
count at `k`; models `df[mask].index.tolist()`. -/
def idxWhereAux {α : Type _} (f : α → Bool) : Nat → List α → List Nat
  | _, [] => []
  | k, x :: xs =>
    if f x then k :: idxWhereAux f (k + 1) xs else idxWhereAux f (k + 1) xs

/-- `df[mask].index.tolist()`: the row positions satisfying the mask. -/
def idxWhere {α : Type _} (f : α → Bool) (l : List α) : List Nat :=
  idxWhereAux f 0 l

/-- Concatenation of per-element violation lists, in element order. -/
def concatMap {α β : Type _} (f : α → List β) : List α → List β
  | [] => []
  | x :: xs => f x ++ concatMap f xs

/-- Concatenation of per-element violation lists for a loop body that can
raise: the first exception aborts the loop (and hence the whole `validate`
call). -/
def concatMapE {α β : Type _} (f : α → Except String (List β)) :
    List α → Except String (List β)
  | [] => Except.ok []
  | x :: xs =>
    match f x with
    | Except.error e => Except.error e
    | Except.ok vs =>
      match concatMapE f xs with
      | Except.error e => Except.error e
      | Except.ok rest => Except.ok (vs ++ rest)

/-- The violation list of a non-raising loop-body result (`[]` on the error
side; used only to decompose results already known to be `ok`). -/
def okD {β : Type _} : Except String (List β) → List β
  | Except.ok vs => vs
  | Except.error _ => []

/-- A diagnostic value carried in a violation's `value`/`expected` slots. -/
inductive Val where
  | str (s : String)
  | cells (l : List Cell)
deriving DecidableEq, Repr

/-- The `DQViolation` dataclass. -/
structure DQViolation where
  rule_name : String
  description : String
  severity : String
  row_indices : List Nat
  column : Option String := none
  value : Option Val := none
  expected : Option Val := none
deriving DecidableEq, Repr

/-- The open `parameters` mapping of a rule: the union of the keys the eight
validators read, each optional (`None` = key absent). `colTypes` is the
`columns` mapping `{name: type}` read by the `data_types` validator. -/
structure Params where
  columns : Option (List String) := none
  received_column : Option String := none
  processed_column : Option String := none
  column : Option String := none
  allowed_values : Option (List Cell) := none
  colTypes : Option (List (String × String)) := none
  min : Option Int := none
  max : Option Int := none
  threshold : Option Rat := none
deriving DecidableEq, Repr

/-- The `DQRule` dataclass. -/
structure DQRule where
  name : String
  description : String
  rule_type : String
  parameters : Params := {}
  severity : String := "ERROR"
deriving DecidableEq, Repr

/-- Deterministic rendering of a list of names (Python list repr, with the
quoting abstracted). -/
def fmtStrList (l : List String) : String :=
  "[" ++ String.intercalate ", " l ++ "]"

/-- Deterministic rendering of one cell for diagnostic strings. -/
def cellStr : Cell → String
  | Cell.null => "NaN"
  | Cell.str s => s
  | Cell.int n => toString n
  | Cell.ts t => toString t.day ++ "T" ++ toString t.tod

/-- Deterministic rendering of a list of cells. -/
def fmtCells (l : List Cell) : String :=
  "[" ++ String.intercalate ", " (l.map cellStr) ++ "]"

/-- `_check_required_columns`: a single schema-level violation when any listed
column is absent. -/
def checkRequiredColumns (df : DataFrame) (rule : DQRule) : List DQViolation :=
  let required := rule.parameters.columns.getD []
  let missing := required.filter (fun c => !(df.hasCol c))
  if missing.isEmpty then []
  else
    [{ rule_name := rule.name,
       description := "Missing required columns: " ++ fmtStrList missing,
       severity := rule.severity,
       row_indices := [],
       column := some "schema" }]

/-- `_check_timestamp_order`: when both columns are present, convert object
columns and evaluate `df_copy[rc] >= df_copy[pc]`; a dtype mismatch raises
`TypeError`, otherwise one violation listing every row whose mask entry is
true (timestamp or numeric comparison according to the common dtype). -/
def checkTimestampOrder (p : String → Option Ts) (df : DataFrame) (rule : DQRule) :
    Except String (List DQViolation) :=
  let rc := rule.parameters.received_column.getD "received_at"
  let pc := rule.parameters.processed_column.getD "processed_at"
  match df.getCol? rc, df.getCol? pc with
  | some colR, some colP =>
    match seriesGeSeries (convSeries p colR) (convSeries p colP) with
    | Except.error e => Except.error e
    | Except.ok mask =>
      let invalid := idxWhere (fun b => b) mask
      if invalid.length > 0 then
        Except.ok
          [{ rule_name := rule.name,
             description := "Invalid timestamp order: " ++ toString invalid.length
               ++ " rows have received_at >= processed_at",
             severity := rule.severity,
             row_indices := invalid,
             column := some (rc ++ "/" ++ pc) }]
      else Except.ok []
  | _, _ => Except.ok []

/-- The body of the per-column loop of `_check_no_future_dates`: skip an absent
column, otherwise evaluate `df_copy[col] > today` (which raises `TypeError`
on a non-empty numeric column) and flag the rows whose mask entry is true. -/
def noFutureDatesCol (p : String → Option Ts) (today : Ts) (df : DataFrame) (rule : DQRule)
    (c : String) : Except String (List DQViolation) :=
  match df.getCol? c with
  | none => Except.ok []
  | some col =>
    match seriesGtScalarTs (convSeries p col) today with
    | Except.error e => Except.error e
    | Except.ok mask =>
      let future := idxWhere (fun b => b) mask
      if future.length > 0 then
        Except.ok
          [{ rule_name := rule.name,
             description := "Future dates found in " ++ c ++ ": "
               ++ toString future.length ++ " rows",
             severity := rule.severity,
             row_indices := future,
             column := some c }]
      else Except.ok []

/-- `_check_no_future_dates`: `today = pd.Timestamp.now().normalize()`; for each
listed, present column, one violation listing the rows strictly after
`today`; an exception from one column's comparison aborts the loop. -/
def checkNoFutureDates (p : String → Option Ts) (now : Ts) (df : DataFrame) (rule : DQRule) :
    Except String (List DQViolation) :=
  concatMapE (noFutureDatesCol p now.normalize df rule)
    (rule.parameters.columns.getD ["received_at", "processed_at"])

/-- First-occurrence deduplication (`Series.unique`). -/
def uniqueInOrder (l : List Cell) : List Cell :=
  l.foldl (fun acc c => if acc.any (fun c2 => decide (c2 = c)) then acc else acc ++ [c]) []

/-- Membership test of a cell in the allowed list (`Series.isin`; pandas treats
`NaN` as equal to `NaN` here, as does cell equality). -/
def cellIsIn (allowed : List Cell) (c : Cell) : Bool :=
  allowed.any (fun a => decide (a = c))

/-- `_check_allowed_values`: when the column parameter is a non-empty name and
the column is present, one violation listing the rows whose value is not in
the allowed list, with the distinct invalid values in first-occurrence
order. -/
def checkAllowedValues (df : DataFrame) (rule : DQRule) : List DQViolation :=
  match rule.parameters.column with
  | none => []
  | some cname =>
    if cname = "" then []
    else
      match df.getCol? cname with
      | none => []
      | some col =>
        let allowed := rule.parameters.allowed_values.getD []
        let invalidIdx := idxWhere (fun c => !(cellIsIn allowed c)) col.cells
        if invalidIdx.length > 0 then
          let uniqueInvalid := uniqueInOrder (col.cells.filter (fun c => !(cellIsIn allowed c)))
          [{ rule_name := rule.name,
             description := "Invalid values in " ++ cname ++ ": " ++ fmtCells uniqueInvalid,
             severity := rule.severity,
             row_indices := invalidIdx,
             column := some cname,
             value := some (Val.cells uniqueInvalid),
             expected := some (Val.cells allowed) }]
        else []

/-- Whether `pd.to_datetime(-, errors=raise)` fails on one cell: only a string
the parser rejects does; missing values become `NaT` without error and
numbers convert via the epoch. -/
def cellParseFailsB (p : String → Option Ts) : Cell → Bool
  | Cell.str s => (p s).isNone
  | _ => false

/-- `_check_data_types`: for each `{name: type}` entry with a present column,
the `datetime` check fails if whole-column conversion raises, the `numeric`
check fails if the column dtype is not numeric; any other declared type is
never checked. Violations carry all row positions. -/
def checkDataTypes (p : String → Option Ts) (df : DataFrame) (rule : DQRule) :
    List DQViolation :=
  let typeChecks := rule.parameters.colTypes.getD []
  concatMap (fun pr =>
    match df.getCol? pr.1 with
    | none => []
    | some col =>
      if pr.2 = "datetime" then
        if col.cells.any (cellParseFailsB p) then
          [{ rule_name := rule.name,
             description := "Column " ++ pr.1 ++ " cannot be converted to datetime",
             severity := rule.severity,
             row_indices := List.range df.nrows,
             column := some pr.1,
             expected := some (Val.str "datetime") }]
        else []
      else if pr.2 = "numeric" then
        if col.dtype = DType.numeric then []
        else
          [{ rule_name := rule.name,
             description := "Column " ++ pr.1 ++ " is not numeric",
             severity := rule.severity,
             row_indices := List.range df.nrows,
             column := some pr.1,
             expected := some (Val.str "numeric") }]
      else []) typeChecks

/-- `value < m` on a numeric cell (`NaN` compares `false`). -/
def cellLtIntB (c : Cell) (m : Int) : Bool :=
  match c with
  | Cell.int n => decide (n < m)
  | _ => false

/-- `value > m` on a numeric cell (`NaN` compares `false`). -/
def cellGtIntB (c : Cell) (m : Int) : Bool :=
  match c with
  | Cell.int n => decide (m < n)
  | _ => false

/-- `_check_range_check`: on a present numeric column, a below-minimum
violation and an above-maximum violation, each only for the bound that is
given and only when offending rows exist. -/
def checkRangeCheck (df : DataFrame) (rule : DQRule) : List DQViolation :=
  match rule.parameters.column with
  | none => []
  | some cname =>
    if cname = "" then []
    else
      match df.getCol? cname with
      | none => []
      | some col =>
        if col.dtype = DType.numeric then
          (match rule.parameters.min with
           | none => []
           | some m =>
             let below := idxWhere (fun c => cellLtIntB c m) col.cells
             if below.length > 0 then
               [{ rule_name := rule.name,
                  description := "Values below minimum " ++ toString m ++ " in " ++ cname
                    ++ ": " ++ toString below.length ++ " rows",
                  severity := rule.severity,
                  row_indices := below,
                  column := some cname,
                  value := some (Val.str ("< " ++ toString m)) }]
             else []) ++
          (match rule.parameters.max with
           | none => []
           | some m =>
             let above := idxWhere (fun c => cellGtIntB c m) col.cells
             if above.length > 0 then
               [{ rule_name := rule.name,
                  description := "Values above maximum " ++ toString m ++ " in " ++ cname
                    ++ ": " ++ toString above.length ++ " rows",
                  severity := rule.severity,
                  row_indices := above,
                  column := some cname,
                  value := some (Val.str ("> " ++ toString m)) }]
             else [])
        else []

/-- `_check_uniqueness`: with a non-empty column list, `df.duplicated(subset,
keep=False)` raises `KeyError` if any listed column is absent; otherwise one
violation listing every row whose subset-tuple occurs more than once. -/
def checkUniqueness (df : DataFrame) (rule : DQRule) : Except String (List DQViolation) :=
  let ucols := rule.parameters.columns.getD []
  if ucols.isEmpty then Except.ok []
  else if ucols.any (fun c => !(df.hasCol c)) then Except.error "KeyError"
  else
    let keys : List (List Cell) :=
      (List.range df.nrows).map (fun i =>
        ucols.filterMap (fun c => (df.getCol? c).map (fun col => col.cells.getD i Cell.null)))
    let dupIdx := idxWhere (fun k => decide (2 ≤ keys.countP (fun k2 => decide (k2 = k)))) keys
    if dupIdx.length > 0 then
      Except.ok
        [{ rule_name := rule.name,
           description := "Duplicate values found in columns " ++ fmtStrList ucols ++ ": "
             ++ toString dupIdx.length ++ " rows",
           severity := rule.severity,
           row_indices := dupIdx,
           column := some (String.intercalate ", " ucols) }]
    else Except.ok []

/-- `_check_completeness`: for each listed, present column, one violation
exactly when the missing fraction `missing_count / len(df)` strictly exceeds
the threshold; on a zero-row frame NumPy yields `NaN` for `0 / 0` and
`NaN > threshold` is `false`, so no violation and no exception. -/
def completenessCol (df : DataFrame) (threshold : Rat) (rule : DQRule) (c : String) :
    List DQViolation :=
  match df.getCol? c with
  | none => []
  | some col =>
    let missingIdx := idxWhere Cell.isna col.cells
    let mc := missingIdx.length
    if df.nrows ≠ 0 ∧ threshold < (mc : Rat) / (df.nrows : Rat) then
      [{ rule_name := rule.name,
         description := "Missing values in " ++ c ++ ": " ++ toString mc,
         severity := rule.severity,
         row_indices := missingIdx,
         column := some c,
         value := some (Val.str (toString mc ++ " missing")),
         expected := some (Val.str ("<= " ++ toString threshold ++ " missing")) }]
    else []

/-- `_check_completeness` proper: the per-column loop over the listed columns,
with the threshold defaulting to `0.0`. -/
def checkCompleteness (df : DataFrame) (rule : DQRule) : List DQViolation :=
  concatMap (completenessCol df (rule.parameters.threshold.getD 0) rule)
    (rule.parameters.columns.getD [])

/-- The eight recognized `rule_type` tags, in dispatch order. -/
def recognizedKinds : List String :=
  ["required_columns", "timestamp_order", "no_future_dates", "allowed_values",
   "data_types", "range_check", "uniqueness", "completeness"]

/-- One dispatch arm of `validate_data`: the violations the matching validator
appends for this rule; `Except.error` models a Python exception escaping the
validator (`KeyError` from `uniqueness`, `TypeError` from the dtype-sensitive
timestamp comparisons). A `rule_type` matching no branch contributes
nothing. -/
def runRule (p : String → Option Ts) (now : Ts) (df : DataFrame) (rule : DQRule) :
    Except String (List DQViolation) :=
  if rule.rule_type = "required_columns" then Except.ok (checkRequiredColumns df rule)
  else if rule.rule_type = "timestamp_order" then checkTimestampOrder p df rule
  else if rule.rule_type = "no_future_dates" then checkNoFutureDates p now df rule
  else if rule.rule_type = "allowed_values" then Except.ok (checkAllowedValues df rule)
  else if rule.rule_type = "data_types" then Except.ok (checkDataTypes p df rule)
  else if rule.rule_type = "range_check" then Except.ok (checkRangeCheck df rule)
  else if rule.rule_type = "uniqueness" then checkUniqueness df rule
  else if rule.rule_type = "completeness" then Except.ok (checkCompleteness df rule)
  else Except.ok []

/-- The rule loop of `validate_data`: violations of all rules concatenated in
catalog order; the first exception aborts the whole call. -/
def runAll (p : String → Option Ts) (now : Ts) (df : DataFrame) :
    List DQRule → Except String (List DQViolation)
  | [] => Except.ok []
  | r :: rs =>
    match runRule p now df r with
    | Except.error e => Except.error e
    | Except.ok vs =>
      match runAll p now df rs with
      | Except.error e => Except.error e
      | Except.ok rest => Except.ok (vs ++ rest)

/-- The engine's mutable state: the loaded catalog and the violation list of
the last run. -/
structure Engine where
  rules : List DQRule := []
  violations : List DQViolation := []
deriving DecidableEq, Repr

/-- `DQRulesEngine.validate_data`: resets the violation list, runs every rule
in catalog order, stores and returns the collected list (the returned list is
the `violations` field of the resulting state); an exception from a validator
aborts the call. The frame is read-only throughout (validators work on
copies), which the embedding expresses by never producing a new frame. -/
def Engine.validate_data (p : String → Option Ts) (now : Ts) (df : DataFrame) (e : Engine) :
    Except String Engine :=
  match runAll p now df e.rules with
  | Except.error msg => Except.error msg
  | Except.ok vs => Except.ok { rules := e.rules, violations := vs }

/-- One rule entry of a YAML document: each key optionally present. -/
structure RawRule where
  name : Option String := none
  description : Option String := none
  rule_type : Option String := none
  parameters : Option Params := none
  severity : Option String := none
deriving DecidableEq, Repr

/-- A parsed YAML rule document: the optional top-level `rules` sequence. -/
structure RawDoc where
  rules : Option (List RawRule) := none
deriving DecidableEq, Repr

/-- Building one `DQRule` from a document entry: subscripting `name`,
`description` and `rule_type` raises `KeyError` when the key is absent, while
`parameters` and `severity` fall back to their `.get` defaults. -/
def parseRule (r : RawRule) : Except String DQRule :=
  match r.name, r.description, r.rule_type with
  | some n, some d, some t =>
    Except.ok { name := n, description := d, rule_type := t,
                parameters := r.parameters.getD {}, severity := r.severity.getD "ERROR" }
  | _, _, _ => Except.error "KeyError"

/-- Outcome of `load_rules`: normal return, or process termination by
`sys.exit` with the engine state as it stood at that moment. -/
inductive LoadResult where
  | ok (e : Engine)
  | exited (code : Nat) (e : Engine)
deriving DecidableEq, Repr

/-- The entry loop of `load_rules`: each successfully parsed rule is appended
before the next entry is examined; the first malformed entry raises, the
surrounding handler prints and exits with code 1, leaving the rules appended
so far in place. -/
def loadLoop (e : Engine) : List RawRule → LoadResult
  | [] => LoadResult.ok e
  | r :: rest =>
    match parseRule r with
    | Except.ok rule => loadLoop { e with rules := e.rules ++ [rule] } rest
    | Except.error _ => LoadResult.exited 1 e

/-- `DQRulesEngine.load_rules`: `none` models a document `yaml.safe_load`
cannot parse (the handler prints and exits with code 1 before any entry is
read); otherwise the entries of the `rules` sequence (default empty) are
parsed and appended in turn. -/
def load_rules (e : Engine) (doc : Option RawDoc) : LoadResult :=
  match doc with
  | none => LoadResult.exited 1 e
  | some d => loadLoop e (d.rules.getD [])

/-- The rules produced by the entries before the first malformed one. -/
def parsedInit : List RawRule → List DQRule
  | [] => []
  | r :: rest =>
    match parseRule r with
    | Except.ok rule => rule :: parsedInit rest
    | Except.error _ => []

/-- The `summary` block of the report. -/
structure ReportSummary where
  total_violations : Nat
  errors : Nat
  warnings : Nat
  info : Nat
  timestamp : Ts
deriving DecidableEq, Repr

/-- One entry of the flattened `all_violations` list: the violation with
`row_indices` replaced by its length. -/
structure ReportEntry where
  rule_name : String
  description : String
  severity : String
  column : Option String
  value : Option Val
  expected : Option Val
  affected_rows : Nat
deriving DecidableEq, Repr

/-- The structured report `generate_report` assembles. -/
structure Report where
  summary : ReportSummary
  violations_by_rule : List (String × List DQViolation)
  all_violations : List ReportEntry
deriving DecidableEq, Repr

/-- Appending one violation to the `violations_by_rule` grouping (Python dict:
first occurrence fixes the key's position). -/
def insertByRule (acc : List (String × List DQViolation)) (v : DQViolation) :
    List (String × List DQViolation) :=
  if acc.any (fun pr => decide (pr.1 = v.rule_name)) then
    acc.map (fun pr => if pr.1 = v.rule_name then (pr.1, pr.2 ++ [v]) else pr)
  else acc ++ [(v.rule_name, [v])]

/-- The `violations_by_rule` grouping of the report. -/
def groupByRule (vs : List DQViolation) : List (String × List DQViolation) :=
  vs.foldl insertByRule []

/-- Flattening one violation into an `all_violations` entry. -/
def toEntry (v : DQViolation) : ReportEntry :=
  { rule_name := v.rule_name, description := v.description, severity := v.severity,
    column := v.column, value := v.value, expected := v.expected,
    affected_rows := v.row_indices.length }

/-- The in-memory report dictionary built by `generate_report` from the
violation list, stamped with the current time. -/
def buildReport (now : Ts) (vs : List DQViolation) : Report :=
  { summary :=
      { total_violations := vs.length,
        errors := vs.countP (fun v => decide (v.severity = "ERROR")),
        warnings := vs.countP (fun v => decide (v.severity = "WARNING")),
        info := vs.countP (fun v => decide (v.severity = "INFO")),
        timestamp := now },
    violations_by_rule := groupByRule vs,
    all_violations := vs.map toEntry }

/-- A file-system effect performed by `generate_report`. -/
inductive FileEffect where
  | mkdir (path : String)
  | writeJson (path : String)
  | writeCsv (path : String)
  | writePng (path : String)
deriving DecidableEq, Repr

/-- What `generate_report` produces: the report, the file-system effects it
performs (directory creation, the JSON report, and — when violations exist —
the CSV table and the chart), and the returned file locations. -/
structure GenReportResult where
  report : Report
  effects : List FileEffect
  report_file : String
  csv_file : Option String
deriving DecidableEq, Repr

/-- `DQRulesEngine.generate_report` on a violation list: builds the report and
performs its writes; `now` is the wall-clock instant read by
`datetime.now()`. -/
def generate_report (now : Ts) (outputDir : String) (vs : List DQViolation) :
    GenReportResult :=
  let report := buildReport now vs
  { report := report,
    effects :=
      [FileEffect.mkdir outputDir, FileEffect.writeJson (outputDir ++ "/dq_report.json")]
        ++ (if vs.isEmpty then [] else [FileEffect.writeCsv (outputDir ++ "/dq_violations.csv")])
        ++ (if vs.isEmpty then [] else [FileEffect.writePng (outputDir ++ "/dq_visualization.png")]),
    report_file := outputDir ++ "/dq_report.json",
    csv_file := if vs.isEmpty then none else some (outputDir ++ "/dq_violations.csv") }

/-- The rule with its `data_types` column mapping restricted to the entries
declaring `datetime` or `numeric`. -/
def filterColTypes (rule : DQRule) : DQRule :=
  { rule with
    parameters :=
      { rule.parameters with
        colTypes :=
          some ((rule.parameters.colTypes.getD []).filter
                  (fun pr => decide (pr.2 = "datetime") || decide (pr.2 = "numeric"))) } }

/-- Whether one document entry parses without error. -/
def parseOkB (r : RawRule) : Bool :=
  match parseRule r with
  | Except.ok _ => true
  | Except.error _ => false

/-- The report with the summary's wall-clock stamp erased, for comparing the
time-independent content of two reports. -/
def stripTime (r : Report) : Report :=
  { r with summary := { r.summary with timestamp := ⟨0, 0⟩ } }

/-! ## Helper lemmas -/

theorem mem_idxWhereAux {α : Type _} (f : α → Bool) (l : List α) :
    ∀ (k i : Nat), i ∈ idxWhereAux f k l ↔
      ∃ j x, i = k + j ∧ l.get? j = some x ∧ f x = true := by
  induction l with
  | nil => intro k i; simp [idxWhereAux]
  | cons x xs ih =>
    intro k i
    simp only [idxWhereAux]
    by_cases h : f x = true
    · rw [if_pos h, List.mem_cons, ih (k + 1) i]
      constructor
      · rintro (rfl | ⟨j, y, rfl, hy, hfy⟩)
        · exact ⟨0, x, by omega, rfl, h⟩
        · exact ⟨j + 1, y, by omega, by simpa using hy, hfy⟩
      · rintro ⟨j, y, hij, hy, hfy⟩
        cases j with
        | zero =>
          left
          omega
        | succ j =>
          right
          exact ⟨j, y, by omega, by simpa using hy, hfy⟩
    · rw [if_neg h, ih (k + 1) i]
      constructor
      · rintro ⟨j, y, rfl, hy, hfy⟩
        exact ⟨j + 1, y, by omega, by simpa using hy, hfy⟩
      · rintro ⟨j, y, hij, hy, hfy⟩
        cases j with
        | zero =>
          rw [List.get?_cons_zero] at hy
          injection hy with hxy
          subst hxy
          exact absurd hfy h
        | succ j =>
          exact ⟨j, y, by omega, by simpa using hy, hfy⟩

theorem mem_idxWhere {α : Type _} {f : α → Bool} {l : List α} {i : Nat} :
    i ∈ idxWhere f l ↔ ∃ x, l.get? i = some x ∧ f x = true := by
  unfold idxWhere
  rw [mem_idxWhereAux]
  constructor
  · rintro ⟨j, y, rfl, hy, hfy⟩
    exact ⟨y, by simpa using hy, hfy⟩
  · rintro ⟨y, hy, hfy⟩
    exact ⟨i, y, by omega, hy, hfy⟩

theorem length_idxWhereAux {α : Type _} (f : α → Bool) (l : List α) :
    ∀ k, (idxWhereAux f k l).length = l.countP f := by
  induction l with
  | nil => intro k; simp [idxWhereAux, List.countP_nil]
  | cons x xs ih =>
    intro k
    simp only [idxWhereAux, List.countP_cons]
    by_cases h : f x = true
    · rw [if_pos h, h]
      simp [ih (k + 1)]
    · rw [if_neg h]
      simp only [Bool.not_eq_true] at h
      simp [h, ih (k + 1)]

theorem length_idxWhere {α : Type _} (f : α → Bool) (l : List α) :
    (idxWhere f l).length = l.countP f :=
  length_idxWhereAux f l 0

theorem mem_concatMap {α β : Type _} (f : α → List β) (l : List α) (b : β) :
    b ∈ concatMap f l ↔ ∃ a ∈ l, b ∈ f a := by
  induction l with
  | nil => simp [concatMap]
  | cons x xs ih => simp [concatMap, ih]

theorem concatMap_eq_nil {α β : Type _} (f : α → List β) (l : List α)
    (h : ∀ a ∈ l, f a = []) : concatMap f l = [] := by
  induction l with
  | nil => rfl
  | cons x xs ih =>
    simp only [concatMap, h x (List.mem_cons_self x xs),
      ih (fun a ha => h a (List.mem_cons_of_mem x ha)), List.nil_append]

theorem concatMap_filter {α β : Type _} (f : α → List β) (keep : α → Bool) (l : List α)
    (h : ∀ a, keep a = false → f a = []) :
    concatMap f l = concatMap f (l.filter keep) := by
  induction l with
  | nil => rfl
  | cons x xs ih =>
    by_cases hx : keep x = true
    · simp only [List.filter_cons, if_pos hx, concatMap, ih]
    · have hfx := h x (by simpa using hx)
      simp only [List.filter_cons, if_neg hx, concatMap, hfx, List.nil_append, ih]

/-- Every violation emitted by a per-column scanning validator names its own
column; under that discipline, a column `c` of the scanned list has a
violation in the concatenated output iff its own scan is non-empty. -/
theorem exists_col_violation_iff {g : String → List DQViolation} {cs : List String}
    {c : String} (hc : c ∈ cs)
    (hcol : ∀ c' ∈ cs, ∀ v ∈ g c', v.column = some c') :
    (∃ v ∈ concatMap g cs, v.column = some c) ↔ g c ≠ [] := by
  constructor
  · rintro ⟨v, hv, hvc⟩
    rw [mem_concatMap] at hv
    obtain ⟨c', hc', hvg⟩ := hv
    have hv' := hcol c' hc' v hvg
    rw [hv'] at hvc
    injection hvc with h
    subst h
    intro hnil
    rw [hnil] at hvg
    exact absurd hvg (List.not_mem_nil v)
  · intro hne
    obtain ⟨v, hv⟩ := List.exists_mem_of_ne_nil _ hne
    exact ⟨v, (mem_concatMap g cs v).mpr ⟨c, hc, hv⟩, hcol c hc v hv⟩

/-! ## Claim theorems -/

/-- C9: for every violation list, the report's `total_violations` is the length
of the list; `errors`, `warnings` and `info` are the counts of violations whose
severity is exactly `ERROR`, `WARNING` and `INFO` (so any other severity string
counts toward the total but toward none of the three buckets); every
`all_violations` entry carries `affected_rows = len(row_indices)`; and on the
empty list all counts are zero with empty grouping and empty flattened list. -/
theorem report_aggregation_correct (now : Ts) (vs : List DQViolation) :
    (buildReport now vs).summary.total_violations = vs.length ∧
    (buildReport now vs).summary.errors =
      (vs.filter (fun v => v.severity = "ERROR")).length ∧
    (buildReport now vs).summary.warnings =
      (vs.filter (fun v => v.severity = "WARNING")).length ∧
    (buildReport now vs).summary.info =
      (vs.filter (fun v => v.severity = "INFO")).length ∧
    (buildReport now vs).all_violations = vs.map toEntry ∧
    (∀ v ∈ vs, (toEntry v).affected_rows = v.row_indices.length) ∧
    (buildReport now []).summary.total_violations = 0 ∧
    (buildReport now []).summary.errors = 0 ∧
    (buildReport now []).summary.warnings = 0 ∧
    (buildReport now []).summary.info = 0 ∧
    (buildReport now []).violations_by_rule = [] ∧
    (buildReport now []).all_violations = [] := by
  refine ⟨rfl, ?_, ?_, ?_, rfl, fun v _ => rfl, rfl, rfl, rfl, rfl, rfl, rfl⟩
  · exact List.countP_eq_length_filter _ _
  · exact List.countP_eq_length_filter _ _
  · exact List.countP_eq_length_filter _ _

/-- C10: the `data_types` validator checks only columns declared `datetime` or
`numeric`; entries declaring any other type (`int`, `float`, `string`, ...)
are dropped without producing violations, so the check behaves exactly as if
those entries were filtered out of the rule's column mapping. -/
theorem dataTypes_checks_only_datetime_numeric (p : String → Option Ts) (df : DataFrame)
    (rule : DQRule) :
    checkDataTypes p df rule = checkDataTypes p df (filterColTypes rule) := by
  simp only [checkDataTypes, filterColTypes, Option.getD_some]
  apply concatMap_filter
  intro pr hkeep
  rw [Bool.or_eq_false_iff] at hkeep
  obtain ⟨h1, h2⟩ := hkeep
  rw [decide_eq_false_iff_not] at h1 h2
  cases hcol : df.getCol? pr.1 with
  | none => rfl
  | some col => simp [hcol, if_neg h1, if_neg h2]

/-- C3 counterexample: `generate_report` is not a pure function of the
violation list — even on the empty list it performs file-system effects, and
two invocations at different wall-clock instants produce different reports
(the summary timestamp differs). -/
theorem generate_report_not_pure_cex :
    (generate_report ⟨0, 0⟩ "dq_reports" []).effects ≠ [] ∧
    buildReport ⟨0, 0⟩ [] ≠ buildReport ⟨0, 1⟩ [] := by
  constructor
  · decide
  · decide

/-- C3 amended: `generate_report` always performs I/O (it creates the output
directory and writes the JSON report, plus the CSV table and the chart when
violations exist) and stamps the summary with the current time; apart from
that timestamp, the report it builds is a pure function of the violation
list (same list, same time-stripped report, regardless of when it runs). -/
theorem generate_report_effects_and_content (now now2 : Ts) (dir : String)
    (vs : List DQViolation) :
    (generate_report now dir vs).effects ≠ [] ∧
    stripTime (generate_report now dir vs).report =
      stripTime (generate_report now2 dir vs).report := by
  constructor
  · simp [generate_report]
  · rfl

/-- C1 counterexample: `load_rules` is not atomic — on a document whose second
entry lacks the required `name` key, the process exits with code 1 (there is
no `RuleDefinitionError`), and the first entry's rule has already been
appended to the previously-empty catalog. -/
theorem load_rules_not_atomic_cex :
    load_rules { rules := [], violations := [] }
      (some { rules :=
                some [{ name := some "r1", description := some "d1",
                        rule_type := some "completeness" },
                      { name := none, description := some "d2",
                        rule_type := some "completeness" }] }) =
      LoadResult.exited 1
        { rules := [{ name := "r1", description := "d1", rule_type := "completeness" }],
          violations := [] } ∧
    ([{ name := "r1", description := "d1", rule_type := "completeness" }] : List DQRule) ≠
      ([] : List DQRule) :=
  ⟨rfl, by decide⟩

theorem load_loop_closed_form (rs : List RawRule) :
    ∀ e : Engine, loadLoop e rs =
      if rs.all parseOkB then LoadResult.ok { e with rules := e.rules ++ parsedInit rs }
      else LoadResult.exited 1 { e with rules := e.rules ++ parsedInit rs } := by
  induction rs with
  | nil =>
    intro e
    simp [loadLoop, parsedInit, List.all_nil]
  | cons r rest ih =>
    intro e
    cases hp : parseRule r with
    | ok rule =>
      have hb : parseOkB r = true := by simp only [parseOkB, hp]
      simp only [loadLoop, parsedInit, hp, List.all_cons, hb, Bool.true_and]
      rw [ih]
      by_cases hall : rest.all parseOkB = true
      · rw [if_pos hall, if_pos hall]
        congr 1
        simp
      · rw [if_neg hall, if_neg hall]
        congr 1
        simp
    | error msg =>
      have hb : parseOkB r = false := by simp only [parseOkB, hp]
      simp only [loadLoop, parsedInit, hp, List.all_cons, hb, Bool.false_and, if_neg]
      simp

/-- C1 amended: on every rule document, `load_rules` either succeeds (all
entries parse) with every parsed rule appended to the catalog, or — on a
malformed document or an entry missing a required key — terminates the
process via `sys.exit(1)` (it does not raise a `RuleDefinitionError`), with
the rules of the entries preceding the first failure already appended: the
load is aborted but is not atomic with respect to the catalog's rule list. -/
theorem load_rules_exit_behavior (e : Engine) (doc : Option RawDoc) :
    load_rules e doc =
      match doc with
      | none => LoadResult.exited 1 e
      | some d =>
        if (d.rules.getD []).all parseOkB then
          LoadResult.ok { e with rules := e.rules ++ parsedInit (d.rules.getD []) }
        else
          LoadResult.exited 1 { e with rules := e.rules ++ parsedInit (d.rules.getD []) } := by
  cases doc with
  | none => rfl
  | some d => exact load_loop_closed_form (d.rules.getD []) e

/-- C4: validation is idempotent — if a `validate_data` run on an engine
succeeds, running it again on the resulting engine (same catalog, unmodified
frame) succeeds with the identical state: the same violation list in the same
order, unaffected by the violations accumulated by the first run. -/
theorem validate_idempotent (p : String → Option Ts) (now : Ts) (df : DataFrame)
    (e e1 : Engine) (h : Engine.validate_data p now df e = Except.ok e1) :
    Engine.validate_data p now df e1 = Except.ok e1 := by
  unfold Engine.validate_data at h
  cases hr : runAll p now df e.rules with
  | error msg =>
    rw [hr] at h
    exact Except.noConfusion h
  | ok vs =>
    rw [hr] at h
    injection h with h1
    subst h1
    unfold Engine.validate_data
    have hrules : ({ rules := e.rules, violations := vs } : Engine).rules = e.rules := rfl
    rw [hrules, hr]

/-- C4 witness: a concrete engine whose prior run left a stale violation; a
fresh run resets it and a second run reproduces the same (empty) list. -/
theorem validate_idempotent_witness :
    Engine.validate_data (fun _ => none) ⟨0, 0⟩
      { nrows := 0, cols := [("x", { dtype := DType.object, cells := [] })] }
      { rules := [{ name := "c", description := "d", rule_type := "completeness",
                    parameters := { columns := some ["x"] } }],
        violations := [] } =
      Except.ok
        { rules := [{ name := "c", description := "d", rule_type := "completeness",
                      parameters := { columns := some ["x"] } }],
          violations := [] } :=
  validate_idempotent (fun _ => none) ⟨0, 0⟩
    { nrows := 0, cols := [("x", { dtype := DType.object, cells := [] })] }
    { rules := [{ name := "c", description := "d", rule_type := "completeness",
                  parameters := { columns := some ["x"] } }],
      violations := [{ rule_name := "stale", description := "stale", severity := "ERROR",
                       row_indices := [0] }] }
    { rules := [{ name := "c", description := "d", rule_type := "completeness",
                  parameters := { columns := some ["x"] } }],
      violations := [] }
    rfl

/-- C8: a rule whose `rule_type` matches none of the eight recognized tags
contributes no violations and raises no error, and the violation list of the
whole run is exactly the one obtained with that rule removed from the
catalog. -/
theorem unrecognized_kind_skipped (p : String → Option Ts) (now : Ts) (df : DataFrame)
    (rules1 rules2 : List DQRule) (r : DQRule) (h : r.rule_type ∉ recognizedKinds) :
    runRule p now df r = Except.ok [] ∧
    runAll p now df (rules1 ++ r :: rules2) = runAll p now df (rules1 ++ rules2) := by
  have hr : runRule p now df r = Except.ok [] := by
    simp only [recognizedKinds, List.mem_cons, List.not_mem_nil, or_false, not_or] at h
    obtain ⟨h1, h2, h3, h4, h5, h6, h7, h8⟩ := h
    unfold runRule
    rw [if_neg h1, if_neg h2, if_neg h3, if_neg h4, if_neg h5, if_neg h6, if_neg h7, if_neg h8]
  refine ⟨hr, ?_⟩
  induction rules1 with
  | nil =>
    simp only [List.nil_append, runAll, hr]
    cases hR : runAll p now df rules2 <;> simp
  | cons a as ih =>
    simp only [List.cons_append, runAll, List.append_eq, ih]

/-- C8 witness: a `no_such_kind` rule inserted before a `required_columns`
rule changes nothing about the run's outcome. -/
theorem unrecognized_kind_skipped_witness :
    runRule (fun _ => none) ⟨0, 0⟩ { nrows := 0, cols := [] }
        { name := "weird", description := "d", rule_type := "no_such_kind" } = Except.ok [] ∧
    runAll (fun _ => none) ⟨0, 0⟩ { nrows := 0, cols := [] }
        [{ name := "weird", description := "d", rule_type := "no_such_kind" },
         { name := "req", description := "d", rule_type := "required_columns",
           parameters := { columns := some ["a"] } }] =
      runAll (fun _ => none) ⟨0, 0⟩ { nrows := 0, cols := [] }
        [{ name := "req", description := "d", rule_type := "required_columns",
           parameters := { columns := some ["a"] } }] :=
  unrecognized_kind_skipped (fun _ => none) ⟨0, 0⟩ { nrows := 0, cols := [] } []
    [{ name := "req", description := "d", rule_type := "required_columns",
       parameters := { columns := some ["a"] } }]
    { name := "weird", description := "d", rule_type := "no_such_kind" }
    (by decide)

theorem optGeTs_eq_true_iff (x y : Option Ts) :
    optGeTs x y = true ↔ ∃ a b, x = some a ∧ y = some b ∧ Ts.leb b a = true := by
  cases x <;> cases y <;> simp [optGeTs]

theorem optGeInt_eq_true_iff (x y : Option Int) :
    optGeInt x y = true ↔ ∃ a b, x = some a ∧ y = some b ∧ b ≤ a := by
  cases x <;> cases y <;> simp [optGeInt]

theorem mem_idxWhere_mask {α : Type _} (ge : α → Bool) (l : List α) (i : Nat) :
    i ∈ idxWhere (fun b => b) (l.map ge) ↔ ∃ x, l.get? i = some x ∧ ge x = true := by
  rw [mem_idxWhere]
  constructor
  · rintro ⟨b, hb, hbt⟩
    rw [List.get?_map, Option.map_eq_some'] at hb
    obtain ⟨x, hx, hgx⟩ := hb
    exact ⟨x, hx, hgx.trans hbt⟩
  · rintro ⟨x, hx, hgx⟩
    exact ⟨true, by rw [List.get?_map, hx, Option.map_some', hgx], rfl⟩

theorem mem_tsOrderIdx_iff (ra pa : List (Option Ts)) (i : Nat) :
    i ∈ idxWhere (fun b => b) ((ra.zip pa).map (fun q => optGeTs q.1 q.2)) ↔
      ∃ a b, ra.get? i = some (some a) ∧ pa.get? i = some (some b) ∧ Ts.leb b a = true := by
  rw [mem_idxWhere_mask]
  constructor
  · rintro ⟨⟨x, y⟩, hq, hf⟩
    rw [List.get?_zip_eq_some] at hq
    rw [optGeTs_eq_true_iff] at hf
    obtain ⟨a, b, rfl, rfl, hab⟩ := hf
    exact ⟨a, b, hq.1, hq.2, hab⟩
  · rintro ⟨a, b, ha, hb, hab⟩
    refine ⟨(some a, some b), ?_, ?_⟩
    · rw [List.get?_zip_eq_some]
      exact ⟨ha, hb⟩
    · simpa [optGeTs] using hab

theorem mem_numOrderIdx_iff (ra pa : List (Option Int)) (i : Nat) :
    i ∈ idxWhere (fun b => b) ((ra.zip pa).map (fun q => optGeInt q.1 q.2)) ↔
      ∃ a b, ra.get? i = some (some a) ∧ pa.get? i = some (some b) ∧ b ≤ a := by
  rw [mem_idxWhere_mask]
  constructor
  · rintro ⟨⟨x, y⟩, hq, hf⟩
    rw [List.get?_zip_eq_some] at hq
    rw [optGeInt_eq_true_iff] at hf
    obtain ⟨a, b, rfl, rfl, hab⟩ := hf
    exact ⟨a, b, hq.1, hq.2, hab⟩
  · rintro ⟨a, b, ha, hb, hab⟩
    refine ⟨(some a, some b), ?_, ?_⟩
    · rw [List.get?_zip_eq_some]
      exact ⟨ha, hb⟩
    · simpa [optGeInt] using hab

/-- C5 counterexample: with both configured columns present but numeric, the
source compares them numerically — received `5` against processed `3` emits
a violation although no value of either column is a timestamp — refuting the
claim that a violation occurs exactly when some row's values parse to
timestamps with `received >= processed`. -/
theorem timestamp_order_numeric_cex :
    checkTimestampOrder (fun _ => none)
        { nrows := 1,
          cols := [("received_at", { dtype := DType.numeric, cells := [Cell.int 5] }),
                   ("processed_at", { dtype := DType.numeric, cells := [Cell.int 3] })] }
        { name := "t", description := "d", rule_type := "timestamp_order" } =
      Except.ok
        [{ rule_name := "t",
           description := "Invalid timestamp order: 1 rows have received_at >= processed_at",
           severity := "ERROR", row_indices := [0],
           column := some "received_at/processed_at" }] ∧
    Cell.asTs (Cell.int 5) = none ∧ Cell.asTs (Cell.int 3) = none :=
  ⟨rfl, rfl, rfl⟩

/-- C5 amended: with both configured columns present, the validator's behavior
depends on the columns' post-conversion dtypes. If both are datetime-like
(object columns parsed via `to_datetime`, or datetime64), it succeeds with at
most one violation, emitted exactly when some row has both values parsing to
timestamps with `received >= processed` (equality violating), `row_indices`
exactly those rows; if both are numeric, the same holds with the values
compared numerically; if the dtypes differ, the comparison raises `TypeError`
(even on zero rows) and no violation list is produced. -/
theorem timestamp_order_spec (p : String → Option Ts) (df : DataFrame) (rule : DQRule)
    (colR colP : Column)
    (hr : df.getCol? (rule.parameters.received_column.getD "received_at") = some colR)
    (hp : df.getCol? (rule.parameters.processed_column.getD "processed_at") = some colP) :
    (∀ ra pa, convSeries p colR = ConvSeries.dt ra → convSeries p colP = ConvSeries.dt pa →
      ∃ vs, checkTimestampOrder p df rule = Except.ok vs ∧ vs.length ≤ 1 ∧
        (vs ≠ [] ↔ ∃ i a b, ra.get? i = some (some a) ∧ pa.get? i = some (some b) ∧
          Ts.leb b a = true) ∧
        (∀ v ∈ vs, ∀ i : Nat, i ∈ v.row_indices ↔
          ∃ a b, ra.get? i = some (some a) ∧ pa.get? i = some (some b) ∧
            Ts.leb b a = true)) ∧
    (∀ ra pa, convSeries p colR = ConvSeries.num ra → convSeries p colP = ConvSeries.num pa →
      ∃ vs, checkTimestampOrder p df rule = Except.ok vs ∧ vs.length ≤ 1 ∧
        (vs ≠ [] ↔ ∃ i a b, ra.get? i = some (some a) ∧ pa.get? i = some (some b) ∧
          b ≤ a) ∧
        (∀ v ∈ vs, ∀ i : Nat, i ∈ v.row_indices ↔
          ∃ a b, ra.get? i = some (some a) ∧ pa.get? i = some (some b) ∧ b ≤ a)) ∧
    (∀ ra pa, convSeries p colR = ConvSeries.dt ra → convSeries p colP = ConvSeries.num pa →
      checkTimestampOrder p df rule = Except.error "TypeError") ∧
    (∀ ra pa, convSeries p colR = ConvSeries.num ra → convSeries p colP = ConvSeries.dt pa →
      checkTimestampOrder p df rule = Except.error "TypeError") := by
  refine ⟨?_, ?_, ?_, ?_⟩
  · intro ra pa hra hpa
    simp only [checkTimestampOrder, hr, hp, hra, hpa, seriesGeSeries]
    by_cases hm : idxWhere (fun b => b) ((ra.zip pa).map (fun q => optGeTs q.1 q.2)) = []
    · rw [hm]
      have h00 : ¬ (([] : List Nat).length > 0) := by simp
      rw [if_neg h00]
      refine ⟨[], rfl, by simp, ?_, by simp⟩
      constructor
      · intro hne
        exact absurd rfl hne
      · rintro ⟨i, a, b, ha, hb, hab⟩
        have hmem := (mem_tsOrderIdx_iff ra pa i).mpr ⟨a, b, ha, hb, hab⟩
        rw [hm] at hmem
        exact absurd hmem (List.not_mem_nil i)
    · have hpos :
          0 < (idxWhere (fun b => b) ((ra.zip pa).map (fun q => optGeTs q.1 q.2))).length :=
        List.length_pos.mpr hm
      rw [if_pos hpos]
      refine ⟨_, rfl, by simp, ?_, ?_⟩
      · constructor
        · intro _
          obtain ⟨i, hi⟩ := List.exists_mem_of_ne_nil _ hm
          exact ⟨i, (mem_tsOrderIdx_iff ra pa i).mp hi⟩
        · intro _
          simp
      · intro v hv i
        rw [List.mem_singleton] at hv
        subst hv
        exact mem_tsOrderIdx_iff ra pa i
  · intro ra pa hra hpa
    simp only [checkTimestampOrder, hr, hp, hra, hpa, seriesGeSeries]
    by_cases hm : idxWhere (fun b => b) ((ra.zip pa).map (fun q => optGeInt q.1 q.2)) = []
    · rw [hm]
      have h00 : ¬ (([] : List Nat).length > 0) := by simp
      rw [if_neg h00]
      refine ⟨[], rfl, by simp, ?_, by simp⟩
      constructor
      · intro hne
        exact absurd rfl hne
      · rintro ⟨i, a, b, ha, hb, hab⟩
        have hmem := (mem_numOrderIdx_iff ra pa i).mpr ⟨a, b, ha, hb, hab⟩
        rw [hm] at hmem
        exact absurd hmem (List.not_mem_nil i)
    · have hpos :
          0 < (idxWhere (fun b => b) ((ra.zip pa).map (fun q => optGeInt q.1 q.2))).length :=
        List.length_pos.mpr hm
      rw [if_pos hpos]
      refine ⟨_, rfl, by simp, ?_, ?_⟩
      · constructor
        · intro _
          obtain ⟨i, hi⟩ := List.exists_mem_of_ne_nil _ hm
          exact ⟨i, (mem_numOrderIdx_iff ra pa i).mp hi⟩
        · intro _
          simp
      · intro v hv i
        rw [List.mem_singleton] at hv
        subst hv
        exact mem_numOrderIdx_iff ra pa i
  · intro ra pa hra hpa
    simp [checkTimestampOrder, hr, hp, hra, hpa, seriesGeSeries]
  · intro ra pa hra hpa
    simp [checkTimestampOrder, hr, hp, hra, hpa, seriesGeSeries]

/-- C5 witness: a numeric received column against a datetime-like processed
column raises `TypeError` rather than producing violations. -/
theorem timestamp_order_spec_witness :
    checkTimestampOrder (fun s => if s = "e" then some ⟨0, 5⟩ else none)
        { nrows := 1,
          cols := [("received_at", { dtype := DType.numeric, cells := [Cell.int 7] }),
                   ("processed_at", { dtype := DType.object, cells := [Cell.str "e"] })] }
        { name := "t", description := "d", rule_type := "timestamp_order" } =
      Except.error "TypeError" :=
  (timestamp_order_spec (fun s => if s = "e" then some ⟨0, 5⟩ else none)
    { nrows := 1,
      cols := [("received_at", { dtype := DType.numeric, cells := [Cell.int 7] }),
               ("processed_at", { dtype := DType.object, cells := [Cell.str "e"] })] }
    { name := "t", description := "d", rule_type := "timestamp_order" }
    { dtype := DType.numeric, cells := [Cell.int 7] }
    { dtype := DType.object, cells := [Cell.str "e"] } rfl rfl).2.2.2
    [some 7] [some ⟨0, 5⟩] rfl rfl

theorem concatMapE_ok_decomp {α β : Type _} (f : α → Except String (List β)) (l : List α) :
    ∀ vs, concatMapE f l = Except.ok vs →
      vs = concatMap (fun x => okD (f x)) l := by
  induction l with
  | nil =>
    intro vs h
    simp only [concatMapE] at h
    injection h with h1
    subst h1
    rfl
  | cons a as ih =>
    intro vs h
    simp only [concatMapE] at h
    cases hfa : f a with
    | error e =>
      simp only [hfa] at h
      exact Except.noConfusion h
    | ok ys =>
      simp only [hfa] at h
      cases hrest : concatMapE f as with
      | error e =>
        simp only [hrest] at h
        exact Except.noConfusion h
      | ok rest =>
        simp only [hrest] at h
        injection h with h1
        subst h1
        simp only [concatMap]
        rw [hfa, ← ih rest hrest]
        rfl

theorem concatMapE_error_of {α β : Type _} (f : α → Except String (List β)) (l : List α)
    (e0 : String) (hall : ∀ x ∈ l, ∀ e, f x = Except.error e → e = e0)
    (hex : ∃ x ∈ l, f x = Except.error e0) :
    concatMapE f l = Except.error e0 := by
  induction l with
  | nil =>
    obtain ⟨x, hx, _⟩ := hex
    exact absurd hx (List.not_mem_nil x)
  | cons a as ih =>
    cases hfa : f a with
    | error e =>
      have he := hall a (List.mem_cons_self a as) e hfa
      subst he
      simp [concatMapE, hfa]
    | ok ys =>
      obtain ⟨x, hx, hfx⟩ := hex
      rcases List.mem_cons.mp hx with h | hx'
      · subst h
        rw [hfa] at hfx
        exact Except.noConfusion hfx
      · have hrec := ih (fun y hy e he => hall y (List.mem_cons_of_mem a hy) e he) ⟨x, hx', hfx⟩
        simp [concatMapE, hfa, hrec]

theorem concatMapE_ok_nil {α β : Type _} (f : α → Except String (List β)) (l : List α)
    (h : ∀ x ∈ l, f x = Except.ok []) : concatMapE f l = Except.ok [] := by
  induction l with
  | nil => rfl
  | cons a as ih =>
    simp [concatMapE, h a (List.mem_cons_self a as),
      ih (fun x hx => h x (List.mem_cons_of_mem a hx))]

theorem noFutureDatesCol_okD_column (p : String → Option Ts) (today : Ts) (df : DataFrame)
    (rule : DQRule) (c' : String) :
    ∀ v ∈ okD (noFutureDatesCol p today df rule c'), v.column = some c' := by
  intro v hv
  simp only [noFutureDatesCol] at hv
  cases hcol' : df.getCol? c' with
  | none =>
    simp only [hcol', okD] at hv
    exact absurd hv (List.not_mem_nil v)
  | some col' =>
    simp only [hcol'] at hv
    cases hm : seriesGtScalarTs (convSeries p col') today with
    | error e =>
      simp only [hm, okD] at hv
      exact absurd hv (List.not_mem_nil v)
    | ok mask =>
      simp only [hm] at hv
      split at hv
      · simp only [okD, List.mem_singleton] at hv
        subst hv
        rfl
      · simp only [okD] at hv
        exact absurd hv (List.not_mem_nil v)

theorem ite_ok_ne_error {β : Type _} {c : Prop} [Decidable c] {a b : List β} {e : String}
    (h : (if c then Except.ok a else Except.ok b) = Except.error e) : False := by
  by_cases hc : c
  · rw [if_pos hc] at h
    exact Except.noConfusion h
  · rw [if_neg hc] at h
    exact Except.noConfusion h

theorem noFutureDatesCol_error_eq (p : String → Option Ts) (today : Ts) (df : DataFrame)
    (rule : DQRule) (c' : String) (e : String)
    (h : noFutureDatesCol p today df rule c' = Except.error e) : e = "TypeError" := by
  simp only [noFutureDatesCol] at h
  cases hcol' : df.getCol? c' with
  | none =>
    simp only [hcol'] at h
    exact Except.noConfusion h
  | some col' =>
    simp only [hcol'] at h
    cases hcs : convSeries p col' with
    | dt vals =>
      simp only [hcs, seriesGtScalarTs] at h
      exact (ite_ok_ne_error h).elim
    | num vals =>
      by_cases hv : vals.isEmpty = true
      · simp only [hcs, seriesGtScalarTs, if_pos hv] at h
        exact (ite_ok_ne_error h).elim
      · simp only [hcs, seriesGtScalarTs, if_neg hv] at h
        injection h with h1
        exact h1.symm

theorem optGtTs_eq_true_iff (x : Option Ts) (t : Ts) :
    optGtTs x t = true ↔ ∃ a, x = some a ∧ Ts.ltb t a = true := by
  cases x <;> simp [optGtTs]

theorem mem_futureMask_iff (ra : List (Option Ts)) (t0 : Ts) (i : Nat) :
    i ∈ idxWhere (fun b => b) (ra.map (fun x => optGtTs x t0)) ↔
      ∃ t, ra.get? i = some (some t) ∧ Ts.ltb t0 t = true := by
  rw [mem_idxWhere_mask]
  constructor
  · rintro ⟨x, hx, hf⟩
    rw [optGtTs_eq_true_iff] at hf
    obtain ⟨a, rfl, ha⟩ := hf
    exact ⟨a, hx, ha⟩
  · rintro ⟨t, ht, hlt⟩
    exact ⟨some t, ht, by simpa [optGtTs] using hlt⟩

/-- C2 counterexample: `no_future_dates` compares against `now` truncated to
midnight, not against `now` itself. With `now` one minute past midnight, a
value thirty seconds past midnight — which does not exceed `now` — is still
flagged as a future date (one violation, row 0), because it exceeds
`normalize(now)`. -/
theorem no_future_dates_truncates_now_cex :
    checkNoFutureDates (fun s => if s = "t" then some ⟨0, 30⟩ else none) ⟨0, 60⟩
        { nrows := 1,
          cols := [("received_at", { dtype := DType.object, cells := [Cell.str "t"] })] }
        { name := "nf", description := "d", rule_type := "no_future_dates",
          parameters := { columns := some ["received_at"] }, severity := "WARNING" } =
      Except.ok
        [{ rule_name := "nf", description := "Future dates found in received_at: 1 rows",
           severity := "WARNING", row_indices := [0], column := some "received_at" }] ∧
    convSeries (fun s => if s = "t" then some ⟨0, 30⟩ else none)
        { dtype := DType.object, cells := [Cell.str "t"] } = ConvSeries.dt [some ⟨0, 30⟩] ∧
    Ts.ltb ⟨0, 60⟩ ⟨0, 30⟩ = false :=
  ⟨rfl, rfl, rfl⟩

/-- C2 amended: for every `no_future_dates` rule and each listed column present
in the frame: when the column is datetime-like after conversion, a successful
run emits a violation for it exactly when some row's value is strictly after
midnight of the current day (`now.normalize`, not `now` itself), with
`row_indices` exactly those rows; while a numeric listed column with at least
one row makes the whole check raise `TypeError` (pandas cannot compare a
numeric series against a `Timestamp`), so no violation list is produced. -/
theorem no_future_dates_spec (p : String → Option Ts) (now : Ts) (df : DataFrame)
    (rule : DQRule) (c : String)
    (hc : c ∈ rule.parameters.columns.getD ["received_at", "processed_at"])
    (col : Column) (hcol : df.getCol? c = some col) :
    (∀ ra, convSeries p col = ConvSeries.dt ra →
      ∀ vs, checkNoFutureDates p now df rule = Except.ok vs →
        ((∃ v ∈ vs, v.column = some c) ↔
          ∃ i t, ra.get? i = some (some t) ∧ Ts.ltb now.normalize t = true) ∧
        (∀ v ∈ vs, v.column = some c → ∀ i : Nat, i ∈ v.row_indices ↔
          ∃ t, ra.get? i = some (some t) ∧ Ts.ltb now.normalize t = true)) ∧
    (col.dtype = DType.numeric → col.cells ≠ [] →
      checkNoFutureDates p now df rule = Except.error "TypeError") := by
  constructor
  · intro ra hra vs hok
    rw [checkNoFutureDates] at hok
    have hdec := concatMapE_ok_decomp _ _ vs hok
    subst hdec
    have hdisc : ∀ c' ∈ rule.parameters.columns.getD ["received_at", "processed_at"],
        ∀ v ∈ okD (noFutureDatesCol p now.normalize df rule c'), v.column = some c' :=
      fun c' _ v hv => noFutureDatesCol_okD_column p now.normalize df rule c' v hv
    constructor
    · rw [exists_col_violation_iff hc hdisc]
      simp only [noFutureDatesCol, hcol, hra, seriesGtScalarTs]
      by_cases hf :
          idxWhere (fun b => b) (ra.map (fun x => optGtTs x now.normalize)) = []
      · rw [hf]
        have h00 : ¬ (([] : List Nat).length > 0) := by simp
        rw [if_neg h00]
        simp only [okD]
        constructor
        · intro hne
          exact absurd rfl hne
        · rintro ⟨i, t, ht, hlt⟩
          have hmem := (mem_futureMask_iff ra now.normalize i).mpr ⟨t, ht, hlt⟩
          rw [hf] at hmem
          exact absurd hmem (List.not_mem_nil i)
      · have hpos :
            0 < (idxWhere (fun b => b) (ra.map (fun x => optGtTs x now.normalize))).length :=
          List.length_pos.mpr hf
        rw [if_pos hpos]
        simp only [okD]
        constructor
        · intro _
          obtain ⟨i, hi⟩ := List.exists_mem_of_ne_nil _ hf
          exact ⟨i, (mem_futureMask_iff ra now.normalize i).mp hi⟩
        · intro _
          simp
    · intro v hv hvc i
      rw [mem_concatMap] at hv
      obtain ⟨c', hc', hvg⟩ := hv
      have hvcol := hdisc c' hc' v hvg
      rw [hvcol] at hvc
      injection hvc with he
      subst he
      simp only [noFutureDatesCol, hcol, hra, seriesGtScalarTs] at hvg
      split at hvg
      · simp only [okD, List.mem_singleton] at hvg
        subst hvg
        exact mem_futureMask_iff ra now.normalize i
      · simp only [okD] at hvg
        exact absurd hvg (List.not_mem_nil v)
  · intro hdt hne
    rw [checkNoFutureDates]
    apply concatMapE_error_of
    · intro c' _ e he
      exact noFutureDatesCol_error_eq p now.normalize df rule c' e he
    · refine ⟨c, hc, ?_⟩
      simp only [noFutureDatesCol, hcol, convSeries, hdt]
      have hie : (col.cells.map Cell.asInt).isEmpty = false := by
        cases hcc : col.cells with
        | nil => exact absurd hcc hne
        | cons x xs => rfl
      simp [seriesGtScalarTs, hie]

/-- C2 witness: a value parsing to tomorrow, with `now` at midnight today, is a
future date. -/
theorem no_future_dates_spec_witness :
    (∃ v ∈ [({ rule_name := "nf", description := "Future dates found in received_at: 1 rows",
               severity := "ERROR", row_indices := [0],
               column := some "received_at" } : DQViolation)], v.column = some "received_at") ↔
      ∃ i t, ([some ⟨1, 0⟩] : List (Option Ts)).get? i = some (some t) ∧
        Ts.ltb (Ts.normalize ⟨0, 0⟩) t = true :=
  ((no_future_dates_spec (fun _ => some ⟨1, 0⟩) ⟨0, 0⟩
      { nrows := 1,
        cols := [("received_at", { dtype := DType.object, cells := [Cell.str "x"] })] }
      { name := "nf", description := "d", rule_type := "no_future_dates",
        parameters := { columns := some ["received_at"] } }
      "received_at" (by decide)
      { dtype := DType.object, cells := [Cell.str "x"] } rfl).1 [some ⟨1, 0⟩] rfl
    [{ rule_name := "nf", description := "Future dates found in received_at: 1 rows",
       severity := "ERROR", row_indices := [0], column := some "received_at" }] rfl).1

theorem getCol_length (df : DataFrame) (hwf : df.Wf) (c : String) (col : Column)
    (hcol : df.getCol? c = some col) : col.cells.length = df.nrows := by
  unfold DataFrame.getCol? at hcol
  cases hf : df.cols.find? (fun pr => pr.1 == c) with
  | none =>
    rw [hf] at hcol
    exact Option.noConfusion hcol
  | some pr =>
    rw [hf] at hcol
    simp only [Option.map_some'] at hcol
    injection hcol with h2
    subst h2
    exact hwf pr (List.mem_of_find?_eq_some hf)

theorem mem_missingIdx_iff (cells : List Cell) (i : Nat) :
    i ∈ idxWhere Cell.isna cells ↔ cells.get? i = some Cell.null := by
  rw [mem_idxWhere]
  constructor
  · rintro ⟨x, hx, hisna⟩
    cases x with
    | null => exact hx
    | str s => exact absurd hisna (by simp [Cell.isna])
    | int n => exact absurd hisna (by simp [Cell.isna])
    | ts t => exact absurd hisna (by simp [Cell.isna])
  · intro h
    exact ⟨Cell.null, h, rfl⟩

/-- C6: on a non-empty frame, for each listed column present in the frame, the
`completeness` validator emits a violation for that column exactly when the
fraction of missing values strictly exceeds the threshold (equality is
compliant), and that violation's `row_indices` are exactly the rows whose
cell in that column is missing. -/
theorem completeness_spec (df : DataFrame) (rule : DQRule) (hwf : df.Wf)
    (hn : df.nrows ≠ 0) (c : String) (hc : c ∈ rule.parameters.columns.getD [])
    (col : Column) (hcol : df.getCol? c = some col) :
    ((∃ v ∈ checkCompleteness df rule, v.column = some c) ↔
      rule.parameters.threshold.getD 0 <
        (col.cells.countP Cell.isna : Rat) / (col.cells.length : Rat)) ∧
    (∀ v ∈ checkCompleteness df rule, v.column = some c →
      ∀ i : Nat, i ∈ v.row_indices ↔ col.cells.get? i = some Cell.null) := by
  have hlen := getCol_length df hwf c col hcol
  have hdisc : ∀ c' ∈ rule.parameters.columns.getD [],
      ∀ v ∈ completenessCol df (rule.parameters.threshold.getD 0) rule c',
        v.column = some c' := by
    intro c' _ v hv
    simp only [completenessCol] at hv
    cases hcol' : df.getCol? c' with
    | none =>
      rw [hcol'] at hv
      exact absurd hv (List.not_mem_nil v)
    | some col' =>
      rw [hcol'] at hv
      simp only [] at hv
      split at hv
      · rw [List.mem_singleton] at hv
        subst hv
        rfl
      · exact absurd hv (List.not_mem_nil v)
  constructor
  · rw [checkCompleteness, exists_col_violation_iff hc hdisc]
    simp only [completenessCol, hcol, length_idxWhere]
    by_cases hg : rule.parameters.threshold.getD 0 <
        (col.cells.countP Cell.isna : Rat) / (col.cells.length : Rat)
    · have hcond : df.nrows ≠ 0 ∧ rule.parameters.threshold.getD 0 <
          ((col.cells.countP Cell.isna : Nat) : Rat) / (df.nrows : Rat) := by
        refine ⟨hn, ?_⟩
        rw [← hlen]
        exact hg
      rw [if_pos hcond]
      simp [hg]
    · have hcond : ¬ (df.nrows ≠ 0 ∧ rule.parameters.threshold.getD 0 <
          ((col.cells.countP Cell.isna : Nat) : Rat) / (df.nrows : Rat)) := by
        rintro ⟨_, hlt⟩
        rw [← hlen] at hlt
        exact hg hlt
      rw [if_neg hcond]
      simp [hg]
  · intro v hv hvc i
    rw [checkCompleteness, mem_concatMap] at hv
    obtain ⟨c', hc', hvg⟩ := hv
    have hvcol := hdisc c' hc' v hvg
    rw [hvcol] at hvc
    injection hvc with he
    subst he
    simp only [completenessCol, hcol] at hvg
    split at hvg
    · rw [List.mem_singleton] at hvg
      subst hvg
      exact mem_missingIdx_iff col.cells i
    · exact absurd hvg (List.not_mem_nil v)

/-- C6 witness: one missing cell out of two with threshold `0` is a violation;
the fraction `1/2` strictly exceeds `0`. -/
theorem completeness_spec_witness :
    (∃ v ∈ checkCompleteness
        { nrows := 2,
          cols := [("x", { dtype := DType.object, cells := [Cell.null, Cell.str "a"] })] }
        { name := "c", description := "d", rule_type := "completeness",
          parameters := { columns := some ["x"] } }, v.column = some "x") ↔
      (({ name := "c", description := "d", rule_type := "completeness",
          parameters := { columns := some ["x"] } } : DQRule)).parameters.threshold.getD 0 <
        (([Cell.null, Cell.str "a"].countP Cell.isna : Nat) : Rat) /
          (([Cell.null, Cell.str "a"] : List Cell).length : Rat) :=
  (completeness_spec
    { nrows := 2,
      cols := [("x", { dtype := DType.object, cells := [Cell.null, Cell.str "a"] })] }
    { name := "c", description := "d", rule_type := "completeness",
      parameters := { columns := some ["x"] } }
    (by decide) (by decide) "x" (by decide)
    { dtype := DType.object, cells := [Cell.null, Cell.str "a"] } rfl).1

/-- C7 counterexample: two recognized kinds violate the claimed
zero-violations-no-raise rule for inapplicable rules. `uniqueness` raises
`KeyError` (from `df.duplicated(subset=...)`) when a listed column is absent,
and the `data_types` numeric check — being a dtype check — emits a violation
for a present non-numeric column even on a dataset with zero rows. -/
theorem inapplicable_rule_cex :
    runRule (fun _ => none) ⟨0, 0⟩
        { nrows := 1, cols := [("a", { dtype := DType.object, cells := [Cell.str "x"] })] }
        { name := "u", description := "d", rule_type := "uniqueness",
          parameters := { columns := some ["b"] } } = Except.error "KeyError" ∧
    checkDataTypes (fun _ => none)
        { nrows := 0, cols := [("n", { dtype := DType.object, cells := [] })] }
        { name := "t", description := "d", rule_type := "data_types",
          parameters := { colTypes := some [("n", "numeric")] } } ≠ [] :=
  ⟨rfl, by decide⟩

/-- C7 amended: for every recognized rule kind, an absent referenced column or
an empty (zero-row) dataset yields zero violations and no exception, with
these exceptions: `required_columns` emits its single schema violation for
absent columns; `uniqueness` raises a `KeyError` when its (non-empty) column
list references an absent column; the `data_types` numeric check, being a
dtype check, still fires on a zero-row non-numeric column (its `datetime`
check does not); and `timestamp_order` raises `TypeError` whenever its two
present columns have mismatched post-conversion dtypes (numeric against
datetime-like), a dtype-level rejection independent of the row count, so it
hits zero-row frames too. In particular `completeness` neither raises nor
emits a violation on a zero-row dataset. -/
theorem inapplicable_rules_amended :
    (∀ (p : String → Option Ts) (df : DataFrame) (rule : DQRule),
      df.getCol? (rule.parameters.received_column.getD "received_at") = none →
      checkTimestampOrder p df rule = Except.ok []) ∧
    (∀ (p : String → Option Ts) (df : DataFrame) (rule : DQRule),
      df.getCol? (rule.parameters.processed_column.getD "processed_at") = none →
      checkTimestampOrder p df rule = Except.ok []) ∧
    (∀ (p : String → Option Ts) (now : Ts) (df : DataFrame) (rule : DQRule),
      (∀ c ∈ rule.parameters.columns.getD ["received_at", "processed_at"],
        df.getCol? c = none) →
      checkNoFutureDates p now df rule = Except.ok []) ∧
    (∀ (df : DataFrame) (rule : DQRule) (cname : String),
      rule.parameters.column = some cname → df.getCol? cname = none →
      checkAllowedValues df rule = []) ∧
    (∀ (p : String → Option Ts) (df : DataFrame) (rule : DQRule),
      (∀ pr ∈ rule.parameters.colTypes.getD [], df.getCol? pr.1 = none) →
      checkDataTypes p df rule = []) ∧
    (∀ (df : DataFrame) (rule : DQRule) (cname : String),
      rule.parameters.column = some cname → df.getCol? cname = none →
      checkRangeCheck df rule = []) ∧
    (∀ (df : DataFrame) (rule : DQRule),
      (∀ c ∈ rule.parameters.columns.getD [], df.getCol? c = none) →
      checkCompleteness df rule = []) ∧
    (∀ (df : DataFrame) (rule : DQRule),
      (∃ c ∈ rule.parameters.columns.getD [], df.hasCol c = false) →
      (checkRequiredColumns df rule).length = 1 ∧
      ∀ v ∈ checkRequiredColumns df rule, v.row_indices = [] ∧ v.column = some "schema") ∧
    (∀ (df : DataFrame) (rule : DQRule),
      (∃ c ∈ rule.parameters.columns.getD [], df.hasCol c = false) →
      rule.parameters.columns.getD [] ≠ [] →
      checkUniqueness df rule = Except.error "KeyError") ∧
    (∀ (p : String → Option Ts) (df : DataFrame) (rule : DQRule) (colR colP : Column),
      df.getCol? (rule.parameters.received_column.getD "received_at") = some colR →
      df.getCol? (rule.parameters.processed_column.getD "processed_at") = some colP →
      df.Wf → df.nrows = 0 →
      ((colR.dtype = DType.numeric) ↔ (colP.dtype = DType.numeric)) →
      checkTimestampOrder p df rule = Except.ok []) ∧
    (∀ (p : String → Option Ts) (df : DataFrame) (rule : DQRule) (colR colP : Column),
      df.getCol? (rule.parameters.received_column.getD "received_at") = some colR →
      df.getCol? (rule.parameters.processed_column.getD "processed_at") = some colP →
      colR.dtype = DType.numeric → colP.dtype ≠ DType.numeric →
      checkTimestampOrder p df rule = Except.error "TypeError") ∧
    (∀ (p : String → Option Ts) (df : DataFrame) (rule : DQRule) (colR colP : Column),
      df.getCol? (rule.parameters.received_column.getD "received_at") = some colR →
      df.getCol? (rule.parameters.processed_column.getD "processed_at") = some colP →
      colR.dtype ≠ DType.numeric → colP.dtype = DType.numeric →
      checkTimestampOrder p df rule = Except.error "TypeError") ∧
    (∀ (p : String → Option Ts) (now : Ts) (df : DataFrame) (rule : DQRule),
      df.Wf → df.nrows = 0 → checkNoFutureDates p now df rule = Except.ok []) ∧
    (∀ (df : DataFrame) (rule : DQRule),
      df.Wf → df.nrows = 0 → checkAllowedValues df rule = []) ∧
    (∀ (df : DataFrame) (rule : DQRule),
      df.Wf → df.nrows = 0 → checkRangeCheck df rule = []) ∧
    (∀ (df : DataFrame) (rule : DQRule),
      df.nrows = 0 → (∀ c ∈ rule.parameters.columns.getD [], df.hasCol c = true) →
      checkUniqueness df rule = Except.ok []) ∧
    (∀ (df : DataFrame) (rule : DQRule),
      df.nrows = 0 → checkCompleteness df rule = []) ∧
    (∀ (p : String → Option Ts) (df : DataFrame) (rule : DQRule),
      df.Wf → df.nrows = 0 →
      (∀ pr ∈ rule.parameters.colTypes.getD [], pr.2 = "datetime") →
      checkDataTypes p df rule = []) := by
  refine ⟨?_, ?_, ?_, ?_, ?_, ?_, ?_, ?_, ?_, ?_, ?_, ?_, ?_, ?_, ?_, ?_, ?_, ?_⟩
  · -- timestamp_order, received column absent
    intro p df rule h1
    cases h2 : df.getCol? (rule.parameters.processed_column.getD "processed_at") <;>
      simp [checkTimestampOrder, h1, h2]
  · -- timestamp_order, processed column absent
    intro p df rule h2
    cases h1 : df.getCol? (rule.parameters.received_column.getD "received_at") <;>
      simp [checkTimestampOrder, h1, h2]
  · -- no_future_dates, all listed columns absent
    intro p now df rule h
    rw [checkNoFutureDates]
    apply concatMapE_ok_nil
    intro c hc
    simp [noFutureDatesCol, h c hc]
  · -- allowed_values, column absent
    intro df rule cname hpa hcol
    by_cases hce : cname = "" <;> simp [checkAllowedValues, hpa, hce, hcol]
  · -- data_types, all listed columns absent
    intro p df rule h
    simp only [checkDataTypes]
    apply concatMap_eq_nil
    intro pr hpr
    simp [h pr hpr]
  · -- range_check, column absent
    intro df rule cname hpa hcol
    by_cases hce : cname = "" <;> simp [checkRangeCheck, hpa, hce, hcol]
  · -- completeness, all listed columns absent
    intro df rule h
    rw [checkCompleteness]
    apply concatMap_eq_nil
    intro c hc
    simp [completenessCol, h c hc]
  · -- required_columns does emit on an absent column
    intro df rule h
    obtain ⟨c, hcmem, hcabs⟩ := h
    simp only [checkRequiredColumns]
    have hcmiss : c ∈ (rule.parameters.columns.getD []).filter (fun c => !(df.hasCol c)) :=
      List.mem_filter.mpr ⟨hcmem, by rw [hcabs]; rfl⟩
    cases hmiss : (rule.parameters.columns.getD []).filter (fun c => !(df.hasCol c)) with
    | nil =>
      rw [hmiss] at hcmiss
      exact absurd hcmiss (List.not_mem_nil c)
    | cons a as =>
      refine ⟨by simp, ?_⟩
      intro v hv
      simp only [List.isEmpty_cons, Bool.false_eq_true, if_false, List.mem_singleton] at hv
      subst hv
      exact ⟨rfl, rfl⟩
  · -- uniqueness raises KeyError on an absent listed column
    intro df rule h hne
    obtain ⟨c, hcmem, hcabs⟩ := h
    have hie : (rule.parameters.columns.getD []).isEmpty = false := by
      cases hl : rule.parameters.columns.getD [] with
      | nil => exact absurd hl hne
      | cons a as => rfl
    have hany : ((rule.parameters.columns.getD []).any (fun c => !(df.hasCol c))) = true :=
      List.any_eq_true.mpr ⟨c, hcmem, by rw [hcabs]; rfl⟩
    simp [checkUniqueness, hie, hany]
  · -- timestamp_order on a zero-row frame, both columns of a common kind
    intro p df rule colR colP h1 h2 hwf h0 hk
    have hcR : colR.cells = [] :=
      List.length_eq_zero.mp (by rw [getCol_length df hwf _ _ h1, h0])
    have hcP : colP.cells = [] :=
      List.length_eq_zero.mp (by rw [getCol_length df hwf _ _ h2, h0])
    cases hdR : colR.dtype with
    | object =>
      cases hdP : colP.dtype with
      | object =>
        simp [checkTimestampOrder, h1, h2, convSeries, hdR, hdP, hcR, hcP,
          seriesGeSeries, idxWhere, idxWhereAux]
      | numeric => simp [hdR, hdP] at hk
      | datetime =>
        simp [checkTimestampOrder, h1, h2, convSeries, hdR, hdP, hcR, hcP,
          seriesGeSeries, idxWhere, idxWhereAux]
    | numeric =>
      cases hdP : colP.dtype with
      | object => simp [hdR, hdP] at hk
      | numeric =>
        simp [checkTimestampOrder, h1, h2, convSeries, hdR, hdP, hcR, hcP,
          seriesGeSeries, idxWhere, idxWhereAux]
      | datetime => simp [hdR, hdP] at hk
    | datetime =>
      cases hdP : colP.dtype with
      | object =>
        simp [checkTimestampOrder, h1, h2, convSeries, hdR, hdP, hcR, hcP,
          seriesGeSeries, idxWhere, idxWhereAux]
      | numeric => simp [hdR, hdP] at hk
      | datetime =>
        simp [checkTimestampOrder, h1, h2, convSeries, hdR, hdP, hcR, hcP,
          seriesGeSeries, idxWhere, idxWhereAux]
  · -- timestamp_order, numeric received against datetime-like processed
    intro p df rule colR colP h1 h2 hdR hdP
    cases hdP' : colP.dtype with
    | object => simp [checkTimestampOrder, h1, h2, convSeries, hdR, hdP', seriesGeSeries]
    | numeric => exact absurd hdP' hdP
    | datetime => simp [checkTimestampOrder, h1, h2, convSeries, hdR, hdP', seriesGeSeries]
  · -- timestamp_order, datetime-like received against numeric processed
    intro p df rule colR colP h1 h2 hdR hdP
    cases hdR' : colR.dtype with
    | object => simp [checkTimestampOrder, h1, h2, convSeries, hdR', hdP, seriesGeSeries]
    | numeric => exact absurd hdR' hdR
    | datetime => simp [checkTimestampOrder, h1, h2, convSeries, hdR', hdP, seriesGeSeries]
  · -- no_future_dates on a zero-row frame
    intro p now df rule hwf h0
    rw [checkNoFutureDates]
    apply concatMapE_ok_nil
    intro c _
    cases hcol' : df.getCol? c with
    | none => simp [noFutureDatesCol, hcol']
    | some col =>
      have hcells : col.cells = [] :=
        List.length_eq_zero.mp (by rw [getCol_length df hwf _ _ hcol', h0])
      cases hdt : col.dtype with
      | object =>
        simp [noFutureDatesCol, hcol', convSeries, hdt, hcells, seriesGtScalarTs,
          idxWhere, idxWhereAux]
      | numeric =>
        simp [noFutureDatesCol, hcol', convSeries, hdt, hcells, seriesGtScalarTs,
          idxWhere, idxWhereAux]
      | datetime =>
        simp [noFutureDatesCol, hcol', convSeries, hdt, hcells, seriesGtScalarTs,
          idxWhere, idxWhereAux]
  · -- allowed_values on a zero-row frame
    intro df rule hwf h0
    cases hpa : rule.parameters.column with
    | none => simp [checkAllowedValues, hpa]
    | some cname =>
      by_cases hce : cname = ""
      · simp [checkAllowedValues, hpa, hce]
      · cases hcol' : df.getCol? cname with
        | none => simp [checkAllowedValues, hpa, hce, hcol']
        | some col =>
          have hcells : col.cells = [] :=
            List.length_eq_zero.mp (by rw [getCol_length df hwf _ _ hcol', h0])
          simp [checkAllowedValues, hpa, hce, hcol', hcells, idxWhere, idxWhereAux]
  · -- range_check on a zero-row frame
    intro df rule hwf h0
    cases hpa : rule.parameters.column with
    | none => simp [checkRangeCheck, hpa]
    | some cname =>
      by_cases hce : cname = ""
      · simp [checkRangeCheck, hpa, hce]
      · cases hcol' : df.getCol? cname with
        | none => simp [checkRangeCheck, hpa, hce, hcol']
        | some col =>
          have hcells : col.cells = [] :=
            List.length_eq_zero.mp (by rw [getCol_length df hwf _ _ hcol', h0])
          by_cases hdt : col.dtype = DType.numeric
          · cases hmin : rule.parameters.min <;> cases hmax : rule.parameters.max <;>
              simp [checkRangeCheck, hpa, hce, hcol', hdt, hmin, hmax, hcells,
                idxWhere, idxWhereAux]
          · simp [checkRangeCheck, hpa, hce, hcol', hdt]
  · -- uniqueness on a zero-row frame with its columns present
    intro df rule h0 hpres
    by_cases hie : (rule.parameters.columns.getD []).isEmpty = true
    · simp [checkUniqueness, hie]
    · have hany : ((rule.parameters.columns.getD []).any (fun c => !(df.hasCol c))) = false := by
        rw [Bool.eq_false_iff]
        intro hx
        rw [List.any_eq_true] at hx
        obtain ⟨c, hcmem, hcb⟩ := hx
        rw [hpres c hcmem] at hcb
        simp at hcb
      simp [checkUniqueness, hie, hany, h0, idxWhere, idxWhereAux]
  · -- completeness on a zero-row frame
    intro df rule h0
    rw [checkCompleteness]
    apply concatMap_eq_nil
    intro c _
    cases hcol' : df.getCol? c with
    | none => simp [completenessCol, hcol']
    | some col => simp [completenessCol, hcol', h0]
  · -- data_types with only datetime declarations on a zero-row frame
    intro p df rule hwf h0 hdt
    simp only [checkDataTypes]
    apply concatMap_eq_nil
    intro pr hpr
    cases hcol' : df.getCol? pr.1 with
    | none => simp [hcol']
    | some col =>
      have hcells : col.cells = [] :=
        List.length_eq_zero.mp (by rw [getCol_length df hwf _ _ hcol', h0])
      simp [hcol', hdt pr hpr, hcells]

/-- C7 witness: a `timestamp_order` rule over a frame with no columns is
skipped, and a `uniqueness` rule listing an absent column raises `KeyError`. -/
theorem inapplicable_rules_amended_witness :
    checkTimestampOrder (fun _ => none) { nrows := 0, cols := [] }
        { name := "t", description := "d", rule_type := "timestamp_order" } = Except.ok [] ∧
    checkUniqueness { nrows := 0, cols := [] }
        { name := "u", description := "d", rule_type := "uniqueness",
          parameters := { columns := some ["b"] } } = Except.error "KeyError" :=
  ⟨inapplicable_rules_amended.1 (fun _ => none) { nrows := 0, cols := [] }
      { name := "t", description := "d", rule_type := "timestamp_order" } rfl,
    inapplicable_rules_amended.2.2.2.2.2.2.2.2.1 { nrows := 0, cols := [] }
      { name := "u", description := "d", rule_type := "uniqueness",
        parameters := { columns := some ["b"] } }
      ⟨"b", by decide, rfl⟩ (by decide)⟩

end LabOpsDQ
